import Mathlib

/-!
Verification development for the boto3 TCGA downloader.

The definitions below are a shallow embedding of the manifest-driven
reconciliation engine of `download_tcga_boto3_ok.py` (the variant the
claims cite) together with `generate_retry_manifest.py`.  File-system and
network effects (S3 `head_object`, `download_file`, local MD5 digests,
directory creation) are supplied by an explicit per-entry oracle
(`EntryEnv`); everything else is translated from the Python source.
Wall-clock timestamps are abstracted (the outcome log's timestamp column
is modelled as the empty string; no claim depends on it).
-/

/-- Model of Python `str.lower()` (ASCII case mapping; all inputs of
interest are ASCII or CJK characters, which `Char.toLower` fixes). -/
def pyLower (s : String) : String := String.mk (s.data.map Char.toLower)

/-- Characters stripped by Python `str.strip()` with no argument. -/
def isPySpace (c : Char) : Bool :=
  c = ' ' ∨ c = '\t' ∨ c = '\n' ∨ c = '\r' ∨ c = '\x0b' ∨ c = '\x0c'

/-- Model of Python `str.strip()`: drop leading and trailing whitespace. -/
def pyStrip (s : String) : String :=
  String.mk (((s.data.dropWhile isPySpace).reverse.dropWhile isPySpace).reverse)

/-- Model of Python `str.lstrip(".")`: drop all leading dots. -/
def lstripDots (s : String) : String :=
  String.mk (s.data.dropWhile (fun c => c = '.'))

/-- Helper for `pySplitComma`. -/
def splitCommaAux : List Char → List Char → List String
  | [], acc => [String.mk acc.reverse]
  | c :: cs, acc =>
    if c = ',' then String.mk acc.reverse :: splitCommaAux cs []
    else splitCommaAux cs (c :: acc)

/-- Model of Python `str.split(",")` (note: `"".split(",") == [""]`). -/
def pySplitComma (s : String) : List String := splitCommaAux s.data []

/-- Index of the last `.` in a character list, if any. -/
def rfindDot : List Char → Option Nat
  | [] => none
  | c :: cs =>
    match rfindDot cs with
    | some i => some (i + 1)
    | none => if c = '.' then some 0 else none

/-- Model of `os.path.splitext(p)[1]` for a bare file name (no directory
separators): the extension starts at the last dot, unless every character
before that dot is itself a dot (leading dots do not begin an extension). -/
def splitextExt (p : String) : String :=
  match rfindDot p.data with
  | none => ""
  | some i =>
    if (p.data.take i).any (fun c => c ≠ '.') then String.mk (p.data.drop i)
    else ""

/-- `os.path.splitext(name)[1].lstrip(".").lower()` — the per-file
extension computed by the extension filter (main, lines 278 and 433). -/
def fileExt (name : String) : String := pyLower (lstripDots (splitextExt name))

/-- The allowed-extension set built from `--allowed-extensions`
(main, lines 240–246): split on commas, keep non-blank tokens, normalize
each by `strip` / `lower` / `lstrip(".")`.  Python stores these in a set;
we keep the list (membership is all that is ever used). -/
def parseAllowedExtensions (s : String) : List String :=
  ((pySplitComma s).filter (fun e => pyStrip e ≠ "")).map
    (fun e => lstripDots (pyLower (pyStrip e)))

/-- One validated manifest entry (`files_to_process` element of
`parse_manifest`).  `size` is `none` when the size column exists but the
cell is missing (Python `None`). -/
structure FileInfo where
  uuid : String
  name : String
  md5 : String
  size : Option String
deriving Repr, DecidableEq

/-- A TSV row as `csv.DictReader` delivers it: an association list from
column name to cell value; an absent key models Python `None`. -/
abbrev Row := List (String × String)

/-- Python `row.get(k)` where `k` itself may be `None`. -/
def rowGet (r : Row) (k : Option String) : Option String :=
  match k with
  | none => none
  | some key => (r.find? (fun p => p.1 = key)).map (fun p => p.2)

/-- Python truthiness of an optional string (`None` and `""` are falsy). -/
def truthy : Option String → Bool
  | none => false
  | some s => s ≠ ""

def col_options_id : List String := ["id", "uuid", "file_id"]

def col_options_filename : List String := ["filename", "file_name"]

def col_options_md5 : List String := ["md5", "md5sum"]

def col_options_size : List String := ["size", "file_size"]

/-- Column-alias resolution of `parse_manifest`: the first alias present
in the header wins. -/
def resolveCol (fieldnames : List String) (options : List String) : Option String :=
  options.find? (fun o => fieldnames.contains o)

/-- A manifest file's parsed TSV content: the header (empty list models an
unreadable/empty header, where `reader.fieldnames` is falsy) and the data
rows. -/
structure Manifest where
  fieldnames : List String
  rows : List Row
deriving Repr, DecidableEq

/-- `parse_manifest` (`download_tcga_boto3_ok.py`, lines 52–129).
`none` models the `None` return (empty header or an unresolvable
mandatory column; the unreadable-file exception paths also return `None`
and are subsumed by the empty-header case).  A row lacking a truthy id,
filename or md5 is skipped; the stored md5 is lower-cased (and nothing
else). -/
def parse_manifest (m : Manifest) : Option (List FileInfo) :=
  if m.fieldnames.isEmpty then none
  else
    match resolveCol m.fieldnames col_options_id,
          resolveCol m.fieldnames col_options_filename,
          resolveCol m.fieldnames col_options_md5 with
    | some idCol, some fnCol, some md5Col =>
      let sizeCol := resolveCol m.fieldnames col_options_size
      some (m.rows.filterMap (fun row =>
        let fu := rowGet row (some idCol)
        let fn := rowGet row (some fnCol)
        let md := rowGet row (some md5Col)
        let sz : Option String :=
          match sizeCol with
          | some c => rowGet row (some c)
          | none => some "N/A"
        if truthy fu && truthy fn && truthy md then
          some ⟨fu.getD "", fn.getD "", pyLower (md.getD ""), sz⟩
        else none))
    | _, _, _ => none

/-- The caller's guard on the parse result (main, lines 268–270):
`if not initial_file_infos: sys.exit(1)`.  Python truthiness makes both
`None` and the empty list take the exit branch. -/
def loadAborts (r : Option (List FileInfo)) : Bool :=
  match r with
  | none => true
  | some l => l.isEmpty

/-- The outcome of `s3_client.head_object` as the probe observes it:
success, a botocore `ClientError` (carrying the S3 error code, the HTTP
status and the stringified exception), or any other exception. -/
inductive S3HeadResult where
  | ok
  | clientError (errorCode : Option String) (httpStatus : Option Nat) (detail : String)
  | otherExc (detail : String)
deriving Repr, DecidableEq

/-- Return value of `check_s3_object_existence_for_download`:
`(exists, status_code_enum, message)`. -/
structure HeadCheck where
  found : Bool
  code : Nat
  msg : String
deriving Repr, DecidableEq

/-- Python `f"{x}"` for an optional string (`None` prints as `"None"`). -/
def pyStr : Option String → String
  | none => "None"
  | some s => s

/-- Python `f"{x}"` for an optional integer. -/
def pyStrNat : Option Nat → String
  | none => "None"
  | some n => toString n

/-- `check_s3_object_existence_for_download`
(`download_tcga_boto3_ok.py`, lines 132–167).  Classification is by the
response's error code / HTTP status: 404-equivalents map to enum 1,
403-equivalents to enum 2, any other `ClientError` to enum 3 and any
non-`ClientError` exception to enum 4, the latter two carrying the raw
diagnostic string. -/
def check_s3 (r : S3HeadResult) : HeadCheck :=
  match r with
  | .ok => ⟨true, 0, "文件存在"⟩
  | .clientError errorCode httpStatus detail =>
    if errorCode = some "404" ∨ errorCode = some "NoSuchKey" ∨ httpStatus = some 404 then
      ⟨false, 1, "文件未找到 (404 Not Found) - S3 Code: " ++ pyStr errorCode ++
        ", HTTP Status: " ++ pyStrNat httpStatus ++ ". Details: " ++ detail⟩
    else if errorCode = some "403" ∨ httpStatus = some 403 then
      ⟨false, 2, "访问被拒绝 (403 Forbidden) - S3 Code: " ++ pyStr errorCode ++
        ", HTTP Status: " ++ pyStrNat httpStatus ++ ". Details: " ++ detail⟩
    else
      ⟨false, 3, "AWS API 客户端错误: S3 Code: " ++ pyStr errorCode ++
        ", HTTP Status: " ++ pyStrNat httpStatus ++ ". Details: " ++ detail⟩
  | .otherExc detail => ⟨false, 4, "检查S3对象时发生未知错误: " ++ detail⟩

/-- Outcome of one `s3_client.download_file` call. -/
inductive AttemptResult where
  | success
  | clientError (detail : String)
  | otherExc (detail : String)
deriving Repr, DecidableEq

/-- The I/O oracle for one catalog entry: what the remote store and the
local filesystem would answer at each interaction point of the per-entry
pipeline.  `mkdir` is `some err` when `os.makedirs` raises `OSError err`;
`localMd5` / `postMd5` are the `calculate_md5` results (digest, or the
error message built by `calculate_md5`, lines 33–49) for the pre-existing
and the freshly downloaded file; `attempt k` is the result of the k-th
`download_file` call. -/
structure EntryEnv where
  headResult : S3HeadResult
  mkdir : Option String
  localExists : Bool
  localMd5 : Except String String
  attempt : Nat → AttemptResult
  postMd5 : Except String String

/-- The command-line options the per-entry pipeline reads. -/
structure Args where
  skipExisting : Bool
  retries : Nat
  retryDelay : Nat
deriving Repr, DecidableEq

/-- One line of the outcome log, as `write_log_entry` (lines 396–420)
assembles it.  The timestamp column is abstracted away. -/
structure OutcomeRecord where
  status : String
  uuid : String
  fileName : String
  s3Uri : String
  localPath : String
  expectedMd5 : String
  actualMd5 : String
  size : Option String
  message : String
deriving Repr, DecidableEq

/-- `write_log_entry`: a falsy `actual_md5` is replaced by `"N/A"`. -/
def mkLogEntry (status uuid fileName s3Uri localPath expectedMd5 actualMd5 : String)
    (size : Option String) (message : String) : OutcomeRecord :=
  ⟨status, uuid, fileName, s3Uri, localPath, expectedMd5,
    if actualMd5 = "" then "N/A" else actualMd5, size, message⟩

/-- Result of the download retry loop (lines 576–620). -/
structure LoopResult where
  attemptsMade : Nat
  sleeps : List Nat
  records : List OutcomeRecord
  success : Bool
  lastMsg : String
deriving Repr

/-- The literal the post-loop failure handler searches for
(line 624: `"AWS S3下载错误" in last_exception_message`). -/
def markerAws : String := "AWS S3下载错误"

/-- `last_exception_message` set by the `ClientError` handler (line 585). -/
def awsErrMsg (attemptIdx totalAttempts : Nat) (e : String) : String :=
  markerAws ++ (" (尝试 " ++ toString (attemptIdx + 1) ++ "/" ++
    toString totalAttempts ++ "): " ++ e)

/-- `last_exception_message` set by the generic handler (line 594). -/
def unkErrMsg (attemptIdx : Nat) (e : String) : String :=
  "下载过程中发生未知错误 (尝试 " ++ toString (attemptIdx + 1) ++ "): " ++ e

/-- Naive substring test: does `text` contain `pat`?  (Model of Python
`pat in text`.) -/
def subOf (pat : List Char) : List Char → Bool
  | [] => pat.isEmpty
  | c :: cs => pat.isPrefixOf (c :: cs) || subOf pat cs

/-- Python `pat in text` on strings. -/
def containsSubstr (text pat : String) : Bool := subOf pat.data text.data

/-- The retry loop `for attempt in range(args.retries + 1)`
(lines 578–620), unrolled as fuel-indexed recursion; `idx` is the Python
`attempt` counter.  On `ClientError` the loop sleeps `delay` and retries
while `attempt < retries`; on any other exception it logs `失败_其他`
immediately and breaks without retrying. -/
def dlGo (env : EntryEnv) (fi : FileInfo) (s3Uri localPath : String)
    (retries delay : Nat) : Nat → Nat → String → LoopResult
  | _idx, 0, lastMsg => ⟨0, [], [], false, lastMsg⟩
  | idx, fuel + 1, lastMsg =>
    match env.attempt idx with
    | .success => ⟨1, [], [], true, lastMsg⟩
    | .clientError e =>
      let msg := awsErrMsg idx (retries + 1) e
      if idx < retries then
        let r := dlGo env fi s3Uri localPath retries delay (idx + 1) fuel msg
        ⟨r.attemptsMade + 1, delay :: r.sleeps, r.records, r.success, r.lastMsg⟩
      else ⟨1, [], [], false, msg⟩
    | .otherExc e =>
      let msg := unkErrMsg idx e
      ⟨1, [], [mkLogEntry "失败_其他" fi.uuid fi.name s3Uri localPath fi.md5 "N/A"
        fi.size msg], false, msg⟩

/-- Counters observable for one entry: the log records appended for it (in
order), the number of `head_object` probes, the number of `download_file`
attempts, and the sleep durations between retries. -/
structure EntryOutcome where
  records : List OutcomeRecord
  headCalls : Nat
  attempts : Nat
  sleeps : List Nat
deriving Repr

/-- The per-entry pipeline of `main` (`download_tcga_boto3_ok.py`,
lines 436–712): S3 existence pre-check, lazy target-directory creation,
optional skip-if-verified inspection, the bounded-retry download loop,
and post-download MD5 verification.  Each branch appends exactly the log
records the source writes, in source order. -/
def processEntry (bucket dataDir : String) (args : Args) (fi : FileInfo)
    (env : EntryEnv) : EntryOutcome :=
  let s3Uri := "s3://" ++ bucket ++ "/" ++ fi.uuid ++ "/" ++ fi.name
  let localPath := dataDir ++ "/" ++ fi.uuid ++ "/" ++ fi.name
  let chk := check_s3 env.headResult
  if chk.found = false then
    let pair :=
      if chk.code = 1 then ("跳过_S3文件未找到", "S3对象未找到")
      else if chk.code = 2 then ("跳过_S3禁止访问", "S3对象访问被禁止")
      else ("跳过_S3检查错误", "S3对象预检查失败")
    ⟨[mkLogEntry pair.1 fi.uuid fi.name s3Uri localPath fi.md5 "N/A" fi.size
      (pair.2 ++ ": " ++ chk.msg)], 1, 0, []⟩
  else
    match env.mkdir with
    | some err =>
      ⟨[mkLogEntry "失败_其他" fi.uuid fi.name s3Uri localPath fi.md5 "N/A" fi.size
        ("创建目标目录失败: " ++ err)], 1, 0, []⟩
    | none =>
      let pre : List OutcomeRecord × Bool :=
        if args.skipExisting && env.localExists then
          match env.localMd5 with
          | Except.error err =>
            ([mkLogEntry "失败_MD5计算错误" fi.uuid fi.name s3Uri localPath fi.md5
              "计算出错" fi.size ("计算本地MD5失败: " ++ err)], false)
          | Except.ok d =>
            if d = fi.md5 then
              ([mkLogEntry "已跳过_MD5匹配" fi.uuid fi.name s3Uri localPath fi.md5 d
                fi.size "文件已存在且MD5匹配。"], true)
            else ([], false)
        else ([], false)
      if pre.2 then ⟨pre.1, 1, 0, []⟩
      else
        let r := dlGo env fi s3Uri localPath args.retries args.retryDelay 0
          (args.retries + 1) "未知下载错误"
        if r.success then
          let vRec :=
            match env.postMd5 with
            | Except.error err =>
              mkLogEntry "失败_MD5计算错误" fi.uuid fi.name s3Uri localPath fi.md5
                "计算出错" fi.size ("计算下载后文件MD5失败: " ++ err)
            | Except.ok d =>
              if d = fi.md5 then
                mkLogEntry "成功_MD5匹配" fi.uuid fi.name s3Uri localPath fi.md5 d
                  fi.size "下载成功且MD5匹配。"
              else
                mkLogEntry "失败_MD5不匹配" fi.uuid fi.name s3Uri localPath fi.md5 d
                  fi.size ("文件已下载但MD5不匹配 (预期: " ++ fi.md5 ++ ", 实际: " ++
                    d ++ ")")
          ⟨pre.1 ++ r.records ++ [vRec], 1, r.attemptsMade, r.sleeps⟩
        else
          let post :=
            if containsSubstr r.lastMsg markerAws then
              [mkLogEntry "失败_AWS下载" fi.uuid fi.name s3Uri localPath fi.md5 "N/A"
                fi.size ("AWS S3下载最终失败: " ++ r.lastMsg)]
            else []
          ⟨pre.1 ++ r.records ++ post, 1, r.attemptsMade, r.sleeps⟩

/-- The diagnostic written for an extension-filtered entry (main,
line 433).  Python joins a set here, whose iteration order is
unspecified; we join the list in construction order (no claim depends on
this message). -/
def extSkipMessage (allowed : List String) (name : String) : String :=
  "文件扩展名 '" ++ fileExt name ++ "' 不在允许的列表中 (" ++
    (if allowed.isEmpty then "无限制" else String.intercalate ", " allowed) ++ ")。"

/-- The `跳过_扩展名不匹配` record written for each extension-filtered
entry before the download loop starts (main, lines 423–434); the
`local_path` and `actual_md5` arguments are left at their `"N/A"`
defaults. -/
def extensionSkipRecord (bucket : String) (allowed : List String) (fi : FileInfo) :
    OutcomeRecord :=
  mkLogEntry "跳过_扩展名不匹配" fi.uuid fi.name
    ("s3://" ++ bucket ++ "/" ++ fi.uuid ++ "/" ++ fi.name) "N/A" fi.md5 "N/A"
    fi.size (extSkipMessage allowed fi.name)

/-- The extension filter (main, lines 272–294): with a non-empty allowed
set the manifest entries are split into the download list and the
skipped list; with an empty set everything is downloaded.  Returns
`(file_infos_to_download, skipped_due_to_extension)`. -/
def filterByExtension (allowed : List String) (infos : List FileInfo) :
    List FileInfo × List FileInfo :=
  if allowed.isEmpty then (infos, [])
  else
    (infos.filter (fun fi => allowed.contains (fileExt fi.name)),
     infos.filter (fun fi => !(allowed.contains (fileExt fi.name))))

/-- The whole run over a parsed manifest: extension filtering, then one
skip record per filtered entry (written before the download loop), then
the per-entry pipeline for each remaining entry.  For each manifest entry
the triple records the log lines appended for it and the number of remote
S3 operations (probes plus download attempts) made for it; the
skip-logging loop performs none (source lines 423–434 only write the log). -/
def runAll (bucket dataDir : String) (args : Args) (allowedRaw : Option String)
    (infos : List FileInfo) (envOf : FileInfo → EntryEnv) :
    List (FileInfo × List OutcomeRecord × Nat) :=
  let allowed :=
    match allowedRaw with
    | none => []
    | some s => parseAllowedExtensions s
  let fl := filterByExtension allowed infos
  (fl.2.map (fun fi => (fi, [extensionSkipRecord bucket allowed fi], 0)))
    ++ fl.1.map (fun fi =>
        let r := processEntry bucket dataDir args fi (envOf fi)
        (fi, r.records, r.headCalls + r.attempts))

/-- One row of the retry manifest built by `generate_retry_manifest.py`
(lines 51–57).  The `id`/`filename`/`md5` fields are `row.get(...)`
results and may be `None`. -/
structure RetryItem where
  id : Option String
  filename : Option String
  md5 : Option String
  size : String
  state : String
deriving Repr, DecidableEq

/-- `failed_statuses` (`generate_retry_manifest.py`, line 41). -/
def failed_statuses : List String :=
  ["FAILED_DOWNLOAD", "FAILED_INTEGRITY", "S3_CHECK_FAILED"]

/-- The log-filtering loop of `generate_retry_manifest.py` (lines 40–57):
keep the rows whose `Status` column value is in `failed_statuses` (when
`--failed-only`, which defaults to `True`), and rebuild a manifest entry
from the `UUID` / `Filename` / `Expected_MD5` columns with the size
marked unknown and a `retry_<status>` provenance annotation. -/
def generateRetryItems (failedOnly : Bool) (rows : List Row) : List RetryItem :=
  rows.filterMap (fun row =>
    let status := (rowGet row (some "Status")).getD ""
    if failedOnly && !(failed_statuses.contains status) then none
    else
      some ⟨rowGet row (some "UUID"), rowGet row (some "Filename"),
        rowGet row (some "Expected_MD5"), "N/A", "retry_" ++ pyLower status⟩)

/-- Serialize an `OutcomeRecord` to the TSV row the outcome log of
`download_tcga_boto3_ok.py` holds, keyed by its `log_fieldnames`
(lines 379–390); the wall-clock timestamp cell is abstracted as `""`. -/
def recordToRow (r : OutcomeRecord) : Row :=
  [("时间戳", ""), ("状态", r.status), ("UUID", r.uuid), ("文件名", r.fileName),
   ("S3_URI", r.s3Uri), ("本地路径", r.localPath), ("预期MD5", r.expectedMd5),
   ("实际MD5", r.actualMd5), ("文件大小(manifest)", pyStr r.size),
   ("消息", r.message)]

/-- Modelled from the spec (§4.1): the normalization the spec claims for
stored checksums, namely lower-casing and trimming surrounding
whitespace.  For comparison with the source's actual normalization
(`pyLower` alone, `parse_manifest` line 116). -/
def specChecksumNormalize (s : String) : String := pyLower (pyStrip s)

/-- Side condition for record-count statements: no non-`ClientError`
download failure carries a diagnostic whose composed message happens to
contain the literal `ClientError` marker text the post-loop handler
searches for (a degenerate collision the source's substring test would
misclassify). -/
def noAwsMarkerInUnknownErrors (env : EntryEnv) : Prop :=
  ∀ k e, env.attempt k = AttemptResult.otherExc e →
    containsSubstr (unkErrMsg k e) markerAws = false

theorem isPrefixOf_self_append_chars (p r : List Char) : p.isPrefixOf (p ++ r) = true := by
  rw [List.isPrefixOf_iff_prefix]
  exact List.prefix_append p r

theorem subOf_self_append (p r : List Char) : subOf p (p ++ r) = true := by
  cases p with
  | nil =>
    cases r with
    | nil => rfl
    | cons c cs => simp [subOf, List.isPrefixOf]
  | cons a as =>
    have h : subOf (a :: as) ((a :: as) ++ r) =
        ((a :: as).isPrefixOf ((a :: as) ++ r) || subOf (a :: as) (as ++ r)) := rfl
    rw [h, isPrefixOf_self_append_chars, Bool.true_or]

theorem containsSubstr_left_append (p r : String) : containsSubstr (p ++ r) p = true := by
  unfold containsSubstr
  rw [String.data_append]
  exact subOf_self_append p.data r.data

theorem containsSubstr_awsErrMsg (i n : Nat) (e : String) :
    containsSubstr (awsErrMsg i n e) markerAws = true :=
  containsSubstr_left_append markerAws _

theorem dlGo_zero (env : EntryEnv) (fi : FileInfo) (uri path : String)
    (retries delay idx : Nat) (msg : String) :
    dlGo env fi uri path retries delay idx 0 msg = ⟨0, [], [], false, msg⟩ := rfl

theorem dlGo_succ_success (env : EntryEnv) (fi : FileInfo) (uri path : String)
    (retries delay idx fuel : Nat) (msg : String)
    (h : env.attempt idx = AttemptResult.success) :
    dlGo env fi uri path retries delay idx (fuel + 1) msg = ⟨1, [], [], true, msg⟩ := by
  simp only [dlGo, h]

theorem dlGo_succ_client (env : EntryEnv) (fi : FileInfo) (uri path : String)
    (retries delay idx fuel : Nat) (msg e : String)
    (h : env.attempt idx = AttemptResult.clientError e) :
    dlGo env fi uri path retries delay idx (fuel + 1) msg =
      (if idx < retries then
        let r := dlGo env fi uri path retries delay (idx + 1) fuel
          (awsErrMsg idx (retries + 1) e)
        ⟨r.attemptsMade + 1, delay :: r.sleeps, r.records, r.success, r.lastMsg⟩
      else ⟨1, [], [], false, awsErrMsg idx (retries + 1) e⟩) := by
  simp only [dlGo, h]

theorem dlGo_succ_other (env : EntryEnv) (fi : FileInfo) (uri path : String)
    (retries delay idx fuel : Nat) (msg e : String)
    (h : env.attempt idx = AttemptResult.otherExc e) :
    dlGo env fi uri path retries delay idx (fuel + 1) msg =
      ⟨1, [], [mkLogEntry "失败_其他" fi.uuid fi.name uri path fi.md5 "N/A" fi.size
        (unkErrMsg idx e)], false, unkErrMsg idx e⟩ := by
  simp only [dlGo, h]

theorem dlGo_allClientError (env : EntryEnv) (fi : FileInfo) (uri path : String)
    (retries delay : Nat) (eF : Nat → String)
    (hAll : ∀ k, env.attempt k = AttemptResult.clientError (eF k)) :
    ∀ n idx msg, idx + n = retries →
      dlGo env fi uri path retries delay idx (n + 1) msg =
        ⟨n + 1, List.replicate n delay, [], false,
          awsErrMsg retries (retries + 1) (eF retries)⟩ := by
  intro n
  induction n with
  | zero =>
    intro idx msg h
    have hidx : idx = retries := by omega
    rw [dlGo_succ_client env fi uri path retries delay idx 0 msg (eF idx)
      (hAll idx), if_neg (by omega), hidx]
    rfl
  | succ n ih =>
    intro idx msg h
    have hlt : idx < retries := by omega
    have hrec := ih (idx + 1) (awsErrMsg idx (retries + 1) (eF idx)) (by omega)
    rw [dlGo_succ_client env fi uri path retries delay idx (n + 1) msg (eF idx)
      (hAll idx), if_pos hlt]
    simp only [hrec, List.replicate_succ]

theorem dlGo_trichotomy (env : EntryEnv) (fi : FileInfo) (uri path : String)
    (retries delay : Nat) (hm : noAwsMarkerInUnknownErrors env) :
    ∀ fuel idx msg, ((∃ rest, msg = markerAws ++ rest) ∨ 1 ≤ fuel) →
      ((dlGo env fi uri path retries delay idx fuel msg).success = true ∧
        (dlGo env fi uri path retries delay idx fuel msg).records = []) ∨
      ((dlGo env fi uri path retries delay idx fuel msg).success = false ∧
        (dlGo env fi uri path retries delay idx fuel msg).records = [] ∧
        containsSubstr (dlGo env fi uri path retries delay idx fuel msg).lastMsg
          markerAws = true) ∨
      ((dlGo env fi uri path retries delay idx fuel msg).success = false ∧
        (dlGo env fi uri path retries delay idx fuel msg).records.length = 1 ∧
        ((dlGo env fi uri path retries delay idx fuel msg).records.map
          (fun rec => rec.status)) = ["失败_其他"] ∧
        containsSubstr (dlGo env fi uri path retries delay idx fuel msg).lastMsg
          markerAws = false) := by
  intro fuel
  induction fuel with
  | zero =>
    intro idx msg h
    rcases h with ⟨rest, hrest⟩ | h1
    · right; left
      rw [dlGo_zero]
      refine ⟨rfl, rfl, ?_⟩
      rw [hrest]
      exact containsSubstr_left_append markerAws rest
    · omega
  | succ fuel ih =>
    intro idx msg _h
    cases hA : env.attempt idx with
    | success =>
      left
      rw [dlGo_succ_success env fi uri path retries delay idx fuel msg hA]
      exact ⟨rfl, rfl⟩
    | clientError e =>
      rw [dlGo_succ_client env fi uri path retries delay idx fuel msg e hA]
      by_cases hlt : idx < retries
      · rw [if_pos hlt]
        have hrec := ih (idx + 1) (awsErrMsg idx (retries + 1) e)
          (Or.inl ⟨" (尝试 " ++ toString (idx + 1) ++ "/" ++ toString (retries + 1)
            ++ "): " ++ e, rfl⟩)
        rcases hrec with ⟨h1, h2⟩ | ⟨h1, h2, h3⟩ | ⟨h1, h2, h3, h4⟩
        · left; exact ⟨h1, h2⟩
        · right; left; exact ⟨h1, h2, h3⟩
        · right; right; exact ⟨h1, h2, h3, h4⟩
      · rw [if_neg hlt]
        right; left
        exact ⟨rfl, rfl, containsSubstr_awsErrMsg idx (retries + 1) e⟩
    | otherExc e =>
      right; right
      rw [dlGo_succ_other env fi uri path retries delay idx fuel msg e hA]
      exact ⟨rfl, rfl, rfl, hm idx e hA⟩

/-- Claim C2: for an entry whose remote end fails permanently with a
`ClientError` (the remote-service-classified, retryable class), the
download loop with `--retries N` makes exactly `N + 1` `download_file`
calls (the initial call is attempt 1 of the budget), sleeps
`--retry-delay` seconds between consecutive attempts (`N` sleeps), and
the entry's final log record is the `失败_AWS下载` (`FAILED_TRANSFER`)
terminal status. -/
theorem c2_retry_bound
    (bucket dataDir : String) (args : Args) (fi : FileInfo) (env : EntryEnv)
    (eF : Nat → String)
    (hHead : env.headResult = S3HeadResult.ok)
    (hMkdir : env.mkdir = none)
    (hNoSkip : ¬(args.skipExisting = true ∧ env.localExists = true ∧
      env.localMd5 = Except.ok fi.md5))
    (hAll : ∀ k, env.attempt k = AttemptResult.clientError (eF k)) :
    (processEntry bucket dataDir args fi env).attempts = args.retries + 1 ∧
    (processEntry bucket dataDir args fi env).sleeps =
      List.replicate args.retries args.retryDelay ∧
    ((processEntry bucket dataDir args fi env).records.map
      (fun r => r.status)).getLast? = some "失败_AWS下载" := by
  have hdl := dlGo_allClientError env fi
    ("s3://" ++ bucket ++ "/" ++ fi.uuid ++ "/" ++ fi.name)
    (dataDir ++ "/" ++ fi.uuid ++ "/" ++ fi.name)
    args.retries args.retryDelay eF hAll args.retries 0 "未知下载错误" (by omega)
  cases hse : (args.skipExisting && env.localExists) with
  | false =>
    simp [processEntry, hHead, check_s3, hMkdir, hse, hdl,
      containsSubstr_awsErrMsg, mkLogEntry]
  | true =>
    cases hmd : env.localMd5 with
    | error err =>
      simp [processEntry, hHead, check_s3, hMkdir, hse, hmd, hdl,
        containsSubstr_awsErrMsg, mkLogEntry]
    | ok d =>
      by_cases hd : d = fi.md5
      · exfalso
        apply hNoSkip
        refine ⟨?_, ?_, ?_⟩
        · cases hb : args.skipExisting
          · rw [hb] at hse; simp at hse
          · rfl
        · cases hb : env.localExists
          · rw [hb] at hse; simp at hse
          · rfl
        · rw [hmd, hd]
      · simp [processEntry, hHead, check_s3, hMkdir, hse, hmd, hd, hdl,
          containsSubstr_awsErrMsg, mkLogEntry]

/-- Witness for `c2_retry_bound`: a concrete entry whose every download
attempt raises `ClientError`, with `retries = 2`, `retry-delay = 7`. -/
theorem c2_retry_bound_witness :
    (processEntry "tcga-2-open" "data" ⟨false, 2, 7⟩ ⟨"u1", "f1", "abc", some "1024"⟩
      ⟨S3HeadResult.ok, none, false, Except.ok "zzz",
        fun _ => AttemptResult.clientError "timeout", Except.ok "zzz"⟩).attempts = 3 ∧
    (processEntry "tcga-2-open" "data" ⟨false, 2, 7⟩ ⟨"u1", "f1", "abc", some "1024"⟩
      ⟨S3HeadResult.ok, none, false, Except.ok "zzz",
        fun _ => AttemptResult.clientError "timeout", Except.ok "zzz"⟩).sleeps = [7, 7] ∧
    ((processEntry "tcga-2-open" "data" ⟨false, 2, 7⟩ ⟨"u1", "f1", "abc", some "1024"⟩
      ⟨S3HeadResult.ok, none, false, Except.ok "zzz",
        fun _ => AttemptResult.clientError "timeout", Except.ok "zzz"⟩).records.map
      (fun r => r.status)).getLast? = some "失败_AWS下载" :=
  c2_retry_bound "tcga-2-open" "data" ⟨false, 2, 7⟩ ⟨"u1", "f1", "abc", some "1024"⟩
    ⟨S3HeadResult.ok, none, false, Except.ok "zzz",
      fun _ => AttemptResult.clientError "timeout", Except.ok "zzz"⟩
    (fun _ => "timeout") rfl rfl (by simp) (fun _ => rfl)

/-- Claim C1 counterexample: an entry whose local copy exists under
`--skip-existing` and whose local checksum computation fails receives TWO
terminal records in one run — first `失败_MD5计算错误`, then (the code
falls through to the download, lines 530–553 have no `continue` in the
error branch) the download outcome record `成功_MD5匹配` — refuting
"no entry ever receives two records in one run". -/
theorem c1_one_record_counterexample :
    ((processEntry "b" "d" ⟨true, 0, 0⟩ ⟨"u1", "f1", "abc", some "N/A"⟩
      ⟨S3HeadResult.ok, none, true, Except.error "io fault",
        fun _ => AttemptResult.success, Except.ok "abc"⟩).records.map
      (fun r => r.status)) = ["失败_MD5计算错误", "成功_MD5匹配"] ∧
    (processEntry "b" "d" ⟨true, 0, 0⟩ ⟨"u1", "f1", "abc", some "N/A"⟩
      ⟨S3HeadResult.ok, none, true, Except.error "io fault",
        fun _ => AttemptResult.success, Except.ok "abc"⟩).records.length = 2 := by
  constructor
  · rfl
  · rfl

/-- Claim C1 as amended: every entry that enters the per-entry pipeline
produces exactly one terminal record before the next entry begins, EXCEPT
an entry whose local copy exists under skip-if-verified and whose local
checksum computation fails: that entry produces exactly two (the
`失败_MD5计算错误` record, then the download/verification outcome).
Side condition: no non-`ClientError` download failure's composed
diagnostic contains the literal marker `AWS S3下载错误` (otherwise the
post-loop substring test would append one further record). -/
theorem c1_one_record_amended (bucket dataDir : String) (args : Args)
    (fi : FileInfo) (env : EntryEnv) (hm : noAwsMarkerInUnknownErrors env) :
    (processEntry bucket dataDir args fi env).records.length = 1 ∨
    (args.skipExisting = true ∧ env.localExists = true ∧
      (∃ e, env.localMd5 = Except.error e) ∧
      (processEntry bucket dataDir args fi env).records.length = 2) := by
  have htri := dlGo_trichotomy env fi
    ("s3://" ++ bucket ++ "/" ++ fi.uuid ++ "/" ++ fi.name)
    (dataDir ++ "/" ++ fi.uuid ++ "/" ++ fi.name)
    args.retries args.retryDelay hm (args.retries + 1) 0 "未知下载错误"
    (Or.inr (by omega))
  cases hfound : (check_s3 env.headResult).found with
  | false =>
    left
    simp [processEntry, hfound]
  | true =>
    cases hmk : env.mkdir with
    | some err =>
      left
      simp [processEntry, hfound, hmk]
    | none =>
      cases hse : (args.skipExisting && env.localExists) with
      | false =>
        left
        rcases htri with ⟨h1, h2⟩ | ⟨h1, h2, h3⟩ | ⟨h1, h2, h3, h4⟩
        · simp [processEntry, hfound, hmk, hse, h1, h2]
        · simp [processEntry, hfound, hmk, hse, h1, h2, h3]
        · simp [processEntry, hfound, hmk, hse, h1, h2, h4]
      | true =>
        cases hmd : env.localMd5 with
        | error err =>
          right
          obtain ⟨hb1, hb2⟩ := (Bool.and_eq_true _ _).mp hse
          refine ⟨hb1, hb2, ⟨err, rfl⟩, ?_⟩
          rcases htri with ⟨h1, h2⟩ | ⟨h1, h2, h3⟩ | ⟨h1, h2, h3, h4⟩
          · simp [processEntry, hfound, hmk, hse, hmd, h1, h2]
          · simp [processEntry, hfound, hmk, hse, hmd, h1, h2, h3]
          · simp [processEntry, hfound, hmk, hse, hmd, h1, h2, h4]
        | ok d =>
          left
          by_cases hd : d = fi.md5
          · simp [processEntry, hfound, hmk, hse, hmd, hd]
          · rcases htri with ⟨h1, h2⟩ | ⟨h1, h2, h3⟩ | ⟨h1, h2, h3, h4⟩
            · simp [processEntry, hfound, hmk, hse, hmd, hd, h1, h2]
            · simp [processEntry, hfound, hmk, hse, hmd, hd, h1, h2, h3]
            · simp [processEntry, hfound, hmk, hse, hmd, hd, h1, h2, h4]

/-- Witness for `c1_one_record_amended`: a concrete entry (probe passes,
download succeeds, checksum matches) whose marker side condition holds
vacuously. -/
theorem c1_one_record_amended_witness :
    (processEntry "b" "d" ⟨false, 1, 2⟩ ⟨"u2", "f2", "abc", none⟩
      ⟨S3HeadResult.ok, none, false, Except.ok "abc",
        fun _ => AttemptResult.success, Except.ok "abc"⟩).records.length = 1 ∨
    ((false : Bool) = true ∧ (false : Bool) = true ∧
      (∃ e, Except.ok (ε := String) "abc" = Except.error e) ∧
      (processEntry "b" "d" ⟨false, 1, 2⟩ ⟨"u2", "f2", "abc", none⟩
        ⟨S3HeadResult.ok, none, false, Except.ok "abc",
          fun _ => AttemptResult.success, Except.ok "abc"⟩).records.length = 2) :=
  c1_one_record_amended "b" "d" ⟨false, 1, 2⟩ ⟨"u2", "f2", "abc", none⟩
    ⟨S3HeadResult.ok, none, false, Except.ok "abc",
      fun _ => AttemptResult.success, Except.ok "abc"⟩
    (fun k e h => by simp at h)

/-- Claim C3 (code-bug evidence): an outcome log actually produced by the
recorder — here the single `失败_AWS下载` (`FAILED_TRANSFER`) record of a
permanently failing entry, serialized with the recorder's own column
names — yields an EMPTY retry set from the Retry-Set Generator, because
`generate_retry_manifest.py` filters on an English `Status` column and the
statuses `FAILED_DOWNLOAD`/`FAILED_INTEGRITY`/`S3_CHECK_FAILED`, none of
which any script in this repository ever writes. -/
theorem c3_retry_roundtrip_bug_eval :
    ((processEntry "tcga-2-open" "data" ⟨false, 1, 2⟩ ⟨"u1", "f1", "abc", some "1024"⟩
      ⟨S3HeadResult.ok, none, false, Except.ok "zzz",
        fun _ => AttemptResult.clientError "timeout", Except.ok "zzz"⟩).records.map
      (fun r => r.status)) = ["失败_AWS下载"] ∧
    generateRetryItems true
      ((processEntry "tcga-2-open" "data" ⟨false, 1, 2⟩ ⟨"u1", "f1", "abc", some "1024"⟩
        ⟨S3HeadResult.ok, none, false, Except.ok "zzz",
          fun _ => AttemptResult.clientError "timeout", Except.ok "zzz"⟩).records.map
        recordToRow) = [] := by
  constructor
  · rfl
  · rfl

/-- Claim C4 counterexample: `parse_manifest` stores the raw checksum
lower-cased but NOT trimmed — the accepted row with raw checksum
`" AB12 "` is stored as `" ab12 "`, which differs from the spec's
trim-and-lower normalization (`"ab12"`) and does not compare equal to a
computed digest `"ab12"`; comparison is therefore not
whitespace-insensitive. -/
theorem c4_checksum_normalization_counterexample :
    parse_manifest ⟨["id", "filename", "md5"],
      [[("id", "u1"), ("filename", "f1"), ("md5", " AB12 ")]]⟩ =
      some [⟨"u1", "f1", " ab12 ", some "N/A"⟩] ∧
    specChecksumNormalize " AB12 " = "ab12" ∧
    (" ab12 " : String) ≠ "ab12" := by
  refine ⟨rfl, rfl, ?_⟩
  decide

/-- Claim C4 as amended: for every manifest row accepted by
`parse_manifest`, the stored checksum is the raw value lower-cased (and
nothing more — surrounding whitespace is kept), so downstream equality
with a computed digest is case-insensitive but whitespace-sensitive. -/
theorem c4_checksum_normalization_amended (m : Manifest)
    (infos : List FileInfo) (fi : FileInfo)
    (hp : parse_manifest m = some infos) (hin : fi ∈ infos) :
    ∃ row ∈ m.rows, ∃ raw,
      rowGet row (resolveCol m.fieldnames col_options_md5) = some raw ∧
      fi.md5 = pyLower raw := by
  unfold parse_manifest at hp
  by_cases hf : m.fieldnames.isEmpty
  · rw [if_pos hf] at hp
    exact absurd hp (by simp)
  · rw [if_neg hf] at hp
    cases hid : resolveCol m.fieldnames col_options_id with
    | none => rw [hid] at hp; simp at hp
    | some idCol =>
      cases hfn : resolveCol m.fieldnames col_options_filename with
      | none => rw [hid, hfn] at hp; simp at hp
      | some fnCol =>
        cases hmd5 : resolveCol m.fieldnames col_options_md5 with
        | none => rw [hid, hfn, hmd5] at hp; simp at hp
        | some md5Col =>
          rw [hid, hfn, hmd5] at hp
          simp only [Option.some.injEq] at hp
          rw [← hp] at hin
          obtain ⟨row, hrowmem, hfrow⟩ := List.mem_filterMap.mp hin
          refine ⟨row, hrowmem, ?_⟩
          by_cases hcond : (truthy (rowGet row (some idCol)) &&
              truthy (rowGet row (some fnCol)) &&
              truthy (rowGet row (some md5Col))) = true
          · rw [if_pos hcond] at hfrow
            obtain rfl := Option.some.inj hfrow
            have h3 : truthy (rowGet row (some md5Col)) = true :=
              ((Bool.and_eq_true _ _).mp hcond).2
            cases hmdv : rowGet row (some md5Col) with
            | none => rw [hmdv] at h3; simp [truthy] at h3
            | some raw =>
              refine ⟨raw, rfl, ?_⟩
              simp
          · rw [if_neg hcond] at hfrow
            exact absurd hfrow (by simp)

/-- Witness for `c4_checksum_normalization_amended` at a concrete
one-row manifest with raw checksum `"AB12"`. -/
theorem c4_checksum_normalization_amended_witness :
    ∃ row ∈ ([[("id", "u1"), ("filename", "f1"), ("md5", "AB12")]] : List Row),
      ∃ raw,
        rowGet row (resolveCol ["id", "filename", "md5"] col_options_md5) = some raw ∧
        (FileInfo.mk "u1" "f1" "ab12" (some "N/A")).md5 = pyLower raw :=
  c4_checksum_normalization_amended
    ⟨["id", "filename", "md5"], [[("id", "u1"), ("filename", "f1"), ("md5", "AB12")]]⟩
    [⟨"u1", "f1", "ab12", some "N/A"⟩] ⟨"u1", "f1", "ab12", some "N/A"⟩
    rfl (by simp)

/-- Claim C5 counterexample: a manifest whose header parses (all
mandatory columns resolvable) but whose only row is invalid yields
`some []` — the empty working set — yet the caller's guard
`if not initial_file_infos: sys.exit(1)` treats that empty set exactly
like a fatal load error and aborts, refuting "the caller treats it as
nothing to do, not as an error". -/
theorem c5_empty_catalog_counterexample :
    parse_manifest ⟨["id", "filename", "md5"],
      [[("id", ""), ("filename", "f"), ("md5", "m")]]⟩ = some [] ∧
    loadAborts (parse_manifest ⟨["id", "filename", "md5"],
      [[("id", ""), ("filename", "f"), ("md5", "m")]]⟩) = true := by
  constructor
  · rfl
  · rfl

/-- Claim C5 as amended: `parse_manifest` itself fails (returns `None`)
exactly when the header is empty/unreadable or a mandatory column
(id / filename / md5) has no resolvable alias, and returns an empty
working set when the source parses with zero valid rows; but the caller
aborts the run both on load failure AND on an empty working set — empty
is conflated with failure, not treated as "nothing to do". -/
theorem c5_empty_catalog_amended :
    (∀ m : Manifest, parse_manifest m = none ↔
      (m.fieldnames = [] ∨ resolveCol m.fieldnames col_options_id = none ∨
       resolveCol m.fieldnames col_options_filename = none ∨
       resolveCol m.fieldnames col_options_md5 = none)) ∧
    (∀ r : Option (List FileInfo), loadAborts r = true ↔ (r = none ∨ r = some [])) := by
  constructor
  · intro m
    unfold parse_manifest
    by_cases hf : m.fieldnames.isEmpty
    · simp [hf, List.isEmpty_iff.mp hf]
    · rw [if_neg hf]
      have hf2 : ¬ m.fieldnames = [] := fun h => hf (by simp [h])
      cases resolveCol m.fieldnames col_options_id <;>
        cases resolveCol m.fieldnames col_options_filename <;>
          cases resolveCol m.fieldnames col_options_md5 <;>
            simp [hf2]
  · intro r
    cases r with
    | none => simp [loadAborts]
    | some l => cases l <;> simp [loadAborts]

/-- Claim C6: the probe classifies by response status/code — a
404-equivalent (`Error.Code` of `"404"`/`"NoSuchKey"` or HTTP 404) maps
to enum 1 (NotFound), a 403-equivalent to enum 2 (Forbidden), and any
other failure to the OtherError enums (3 for other `ClientError`s, 4 for
non-`ClientError` exceptions), whose messages carry the raw diagnostic
string; and every non-Present probe result is terminal for the entry —
zero download attempts, no sleeps, exactly one probe call, and the single
log record carries the corresponding skip status. -/
theorem c6_probe_classification (errorCode : Option String)
    (httpStatus : Option Nat) (d : String) :
    ((errorCode = some "404" ∨ errorCode = some "NoSuchKey" ∨ httpStatus = some 404) →
      (check_s3 (S3HeadResult.clientError errorCode httpStatus d)).code = 1) ∧
    (¬(errorCode = some "404" ∨ errorCode = some "NoSuchKey" ∨ httpStatus = some 404) →
      (errorCode = some "403" ∨ httpStatus = some 403) →
      (check_s3 (S3HeadResult.clientError errorCode httpStatus d)).code = 2) ∧
    (¬(errorCode = some "404" ∨ errorCode = some "NoSuchKey" ∨ httpStatus = some 404) →
      ¬(errorCode = some "403" ∨ httpStatus = some 403) →
      (check_s3 (S3HeadResult.clientError errorCode httpStatus d)).code = 3 ∧
      ∃ pre, (check_s3 (S3HeadResult.clientError errorCode httpStatus d)).msg =
        pre ++ d) ∧
    ((check_s3 (S3HeadResult.otherExc d)).code = 4 ∧
      ∃ pre, (check_s3 (S3HeadResult.otherExc d)).msg = pre ++ d) ∧
    (∀ (bucket dataDir : String) (args : Args) (fi : FileInfo) (env : EntryEnv),
      (check_s3 env.headResult).found = false →
      (processEntry bucket dataDir args fi env).attempts = 0 ∧
      (processEntry bucket dataDir args fi env).headCalls = 1 ∧
      (processEntry bucket dataDir args fi env).sleeps = [] ∧
      (processEntry bucket dataDir args fi env).records.map (fun r => r.status) =
        [if (check_s3 env.headResult).code = 1 then "跳过_S3文件未找到"
         else if (check_s3 env.headResult).code = 2 then "跳过_S3禁止访问"
         else "跳过_S3检查错误"]) := by
  refine ⟨?_, ?_, ?_, ⟨rfl, ⟨_, rfl⟩⟩, ?_⟩
  · intro h404
    simp [check_s3, if_pos h404]
  · intro h404 h403
    simp [check_s3, if_neg h404, if_pos h403]
  · intro h404 h403
    rw [show check_s3 (S3HeadResult.clientError errorCode httpStatus d) =
      ⟨false, 3, "AWS API 客户端错误: S3 Code: " ++ pyStr errorCode ++
        ", HTTP Status: " ++ pyStrNat httpStatus ++ ". Details: " ++ d⟩ by
      simp [check_s3, if_neg h404, if_neg h403]]
    exact ⟨rfl, ⟨_, rfl⟩⟩
  · intro bucket dataDir args fi env hfound
    refine ⟨?_, ?_, ?_, ?_⟩
    · simp only [processEntry, hfound, Bool.false_eq_true, if_true, reduceIte]
    · simp only [processEntry, hfound, Bool.false_eq_true, if_true, reduceIte]
    · simp only [processEntry, hfound, Bool.false_eq_true, if_true, reduceIte]
    · simp only [processEntry, hfound, Bool.false_eq_true, if_true, reduceIte]
      split
      · simp [mkLogEntry]
      · split <;> simp [mkLogEntry]

/-- Witness for `c6_probe_classification`: a 5xx-style `ClientError` is
classified OtherError (enum 3), and a concrete 404 probe result yields
zero download attempts. -/
theorem c6_probe_classification_witness :
    (check_s3 (S3HeadResult.clientError (some "500") (some 500) "oops")).code = 3 ∧
    (processEntry "b" "d" ⟨false, 0, 0⟩ ⟨"u", "f", "m", none⟩
      ⟨S3HeadResult.clientError (some "404") none "gone", none, false,
        Except.ok "m", fun _ => AttemptResult.success, Except.ok "m"⟩).attempts = 0 := by
  constructor
  · exact ((c6_probe_classification (some "500") (some 500) "oops").2.2.1
      (by simp) (by simp)).1
  · exact ((c6_probe_classification (some "404") none "gone").2.2.2.2
      "b" "d" ⟨false, 0, 0⟩ ⟨"u", "f", "m", none⟩
      ⟨S3HeadResult.clientError (some "404") none "gone", none, false,
        Except.ok "m", fun _ => AttemptResult.success, Except.ok "m"⟩ rfl).1

/-- Claim C7: a non-retryable failure — a local resource error rather
than a remote-service-classified `ClientError` — ends the entry at once
regardless of the remaining retry budget: a target-directory creation
failure yields zero download attempts, and a non-`ClientError` download
failure on the first attempt yields exactly one attempt with no sleeps;
both move the entry straight to the `失败_其他` failed terminal status. -/
theorem c7_nonretryable_no_retry (bucket dataDir : String) (args : Args)
    (fi : FileInfo) (env : EntryEnv) (e : String)
    (hHead : env.headResult = S3HeadResult.ok)
    (hSkip : args.skipExisting = false) :
    (∀ err, env.mkdir = some err →
      (processEntry bucket dataDir args fi env).attempts = 0 ∧
      (processEntry bucket dataDir args fi env).records.map (fun r => r.status) =
        ["失败_其他"]) ∧
    (env.mkdir = none → env.attempt 0 = AttemptResult.otherExc e →
      containsSubstr (unkErrMsg 0 e) markerAws = false →
      (processEntry bucket dataDir args fi env).attempts = 1 ∧
      (processEntry bucket dataDir args fi env).sleeps = [] ∧
      (processEntry bucket dataDir args fi env).records.map (fun r => r.status) =
        ["失败_其他"]) := by
  constructor
  · intro err hmk
    constructor <;> simp [processEntry, hHead, check_s3, hmk, mkLogEntry]
  · intro hmk hA hnm
    have hdl := dlGo_succ_other env fi
      ("s3://" ++ bucket ++ "/" ++ fi.uuid ++ "/" ++ fi.name)
      (dataDir ++ "/" ++ fi.uuid ++ "/" ++ fi.name)
      args.retries args.retryDelay 0 args.retries "未知下载错误" e hA
    refine ⟨?_, ?_, ?_⟩ <;>
      simp [processEntry, hHead, check_s3, hmk, hSkip, hdl, hnm, mkLogEntry]

/-- Claim C8: after a successful transfer, a verifier read error (the
`calculate_md5` error return) and a checksum mismatch are mapped to two
different terminal statuses — `失败_MD5计算错误` versus `失败_MD5不匹配`
— never to the same one. -/
theorem c8_readerror_vs_mismatch (bucket dataDir : String) (args : Args)
    (fi : FileInfo) (env : EntryEnv)
    (hHead : env.headResult = S3HeadResult.ok)
    (hMkdir : env.mkdir = none)
    (hSkip : args.skipExisting = false)
    (hOk : env.attempt 0 = AttemptResult.success) :
    (∀ err, env.postMd5 = Except.error err →
      (processEntry bucket dataDir args fi env).records.map (fun r => r.status) =
        ["失败_MD5计算错误"]) ∧
    (∀ d, env.postMd5 = Except.ok d → d ≠ fi.md5 →
      (processEntry bucket dataDir args fi env).records.map (fun r => r.status) =
        ["失败_MD5不匹配"]) ∧
    ("失败_MD5计算错误" : String) ≠ "失败_MD5不匹配" := by
  have hdl := dlGo_succ_success env fi
    ("s3://" ++ bucket ++ "/" ++ fi.uuid ++ "/" ++ fi.name)
    (dataDir ++ "/" ++ fi.uuid ++ "/" ++ fi.name)
    args.retries args.retryDelay 0 args.retries "未知下载错误" hOk
  refine ⟨?_, ?_, by decide⟩
  · intro err hpost
    simp [processEntry, hHead, check_s3, hMkdir, hSkip, hdl, hpost, mkLogEntry]
  · intro d hpost hne
    simp [processEntry, hHead, check_s3, hMkdir, hSkip, hdl, hpost, hne, mkLogEntry]

/-- Witness for `c7_nonretryable_no_retry`: with a generous retry budget
of 9, a first-attempt non-`ClientError` failure ("disk full") still makes
exactly one attempt and logs `失败_其他`. -/
theorem c7_nonretryable_no_retry_witness :
    (processEntry "b" "d" ⟨false, 9, 5⟩ ⟨"u", "f", "m", none⟩
      ⟨S3HeadResult.ok, none, false, Except.ok "m",
        fun _ => AttemptResult.otherExc "disk full", Except.ok "m"⟩).attempts = 1 ∧
    (processEntry "b" "d" ⟨false, 9, 5⟩ ⟨"u", "f", "m", none⟩
      ⟨S3HeadResult.ok, none, false, Except.ok "m",
        fun _ => AttemptResult.otherExc "disk full", Except.ok "m"⟩).sleeps = [] ∧
    (processEntry "b" "d" ⟨false, 9, 5⟩ ⟨"u", "f", "m", none⟩
      ⟨S3HeadResult.ok, none, false, Except.ok "m",
        fun _ => AttemptResult.otherExc "disk full", Except.ok "m"⟩).records.map
      (fun r => r.status) = ["失败_其他"] :=
  (c7_nonretryable_no_retry "b" "d" ⟨false, 9, 5⟩ ⟨"u", "f", "m", none⟩
    ⟨S3HeadResult.ok, none, false, Except.ok "m",
      fun _ => AttemptResult.otherExc "disk full", Except.ok "m"⟩
    "disk full" rfl rfl).2 rfl rfl (by decide)

/-- Witness for `c8_readerror_vs_mismatch`: a concrete entry whose
post-download digest computation fails logs `失败_MD5计算错误`. -/
theorem c8_readerror_vs_mismatch_witness :
    (processEntry "b" "d" ⟨false, 0, 0⟩ ⟨"u", "f", "abc", none⟩
      ⟨S3HeadResult.ok, none, false, Except.ok "abc",
        fun _ => AttemptResult.success, Except.error "file vanished"⟩).records.map
      (fun r => r.status) = ["失败_MD5计算错误"] :=
  ((c8_readerror_vs_mismatch "b" "d" ⟨false, 0, 0⟩ ⟨"u", "f", "abc", none⟩
    ⟨S3HeadResult.ok, none, false, Except.ok "abc",
      fun _ => AttemptResult.success, Except.error "file vanished"⟩
    rfl rfl rfl rfl).1) "file vanished" rfl

/-- Claim C9: an entry whose filename extension is not in the (non-empty)
configured allowed set is excluded before remote probing: the run's
triple for it holds exactly the `跳过_扩展名不匹配` skip record and a
remote-operation count of zero (the skip-logging loop performs no S3
call), and the entry never enters the download list that feeds the
per-entry pipeline. -/
theorem c9_extension_filter_before_probe (bucket dataDir : String) (args : Args)
    (raw : String) (infos : List FileInfo) (fi : FileInfo)
    (envOf : FileInfo → EntryEnv)
    (hne : parseAllowedExtensions raw ≠ [])
    (hmem : fi ∈ infos)
    (hext : (parseAllowedExtensions raw).contains (fileExt fi.name) = false) :
    (fi, [extensionSkipRecord bucket (parseAllowedExtensions raw) fi], 0) ∈
      runAll bucket dataDir args (some raw) infos envOf ∧
    fi ∉ (filterByExtension (parseAllowedExtensions raw) infos).1 ∧
    (extensionSkipRecord bucket (parseAllowedExtensions raw) fi).status =
      "跳过_扩展名不匹配" := by
  have hie : ¬ (parseAllowedExtensions raw).isEmpty = true := by
    intro h
    exact hne (List.isEmpty_iff.mp h)
  refine ⟨?_, ?_, rfl⟩
  · simp only [runAll, filterByExtension, if_neg hie]
    apply List.mem_append.mpr
    left
    exact List.mem_map.mpr ⟨fi, List.mem_filter.mpr ⟨hmem, by rw [hext]; rfl⟩, rfl⟩
  · simp only [filterByExtension, if_neg hie]
    intro hcontra
    have h2 := (List.mem_filter.mp hcontra).2
    rw [hext] at h2
    exact absurd h2 (by simp)

/-- Witness for `c9_extension_filter_before_probe`: the spec's scenario —
allowed set `{"bam"}`, entry named `"sample.svs"`. -/
theorem c9_extension_filter_before_probe_witness :
    ((⟨"u9", "sample.svs", "m9", none⟩ : FileInfo),
      [extensionSkipRecord "b" (parseAllowedExtensions "bam")
        ⟨"u9", "sample.svs", "m9", none⟩], 0) ∈
      runAll "b" "d" ⟨false, 0, 0⟩ (some "bam") [⟨"u9", "sample.svs", "m9", none⟩]
        (fun _ => ⟨S3HeadResult.ok, none, false, Except.ok "m9",
          fun _ => AttemptResult.success, Except.ok "m9"⟩) ∧
    (⟨"u9", "sample.svs", "m9", none⟩ : FileInfo) ∉
      (filterByExtension (parseAllowedExtensions "bam")
        [⟨"u9", "sample.svs", "m9", none⟩]).1 ∧
    (extensionSkipRecord "b" (parseAllowedExtensions "bam")
      ⟨"u9", "sample.svs", "m9", none⟩).status = "跳过_扩展名不匹配" :=
  c9_extension_filter_before_probe "b" "d" ⟨false, 0, 0⟩ "bam"
    [⟨"u9", "sample.svs", "m9", none⟩] ⟨"u9", "sample.svs", "m9", none⟩
    (fun _ => ⟨S3HeadResult.ok, none, false, Except.ok "m9",
      fun _ => AttemptResult.success, Except.ok "m9"⟩)
    (by decide) (by simp) (by decide)

/-- Claim C10: extension-filter matching is case-insensitive and
dot-insensitive — the allowed-set parser lower-cases and strips leading
dots from each configured token, and the per-file extension is likewise
dot-stripped and lower-cased, so an `--allowed-extensions` argument of
`"SVS"` or `".svs"` admits exactly the same files; in particular both
admit a file named `"sample.svs"`. -/
theorem c10_extension_matching_insensitive :
    (∀ name : String,
      (parseAllowedExtensions "SVS").contains (fileExt name) =
        (parseAllowedExtensions ".svs").contains (fileExt name)) ∧
    parseAllowedExtensions "SVS" = ["svs"] ∧
    parseAllowedExtensions ".svs" = ["svs"] ∧
    fileExt "sample.svs" = "svs" ∧
    (parseAllowedExtensions "SVS").contains (fileExt "sample.svs") = true := by
  refine ⟨?_, rfl, rfl, rfl, rfl⟩
  intro name
  rfl
